import Mathlib

/-!
# Swift-bindings emission and toolchain invocation: a shallow embedding

This file embeds `src/uniffi/src/bindings/swift/mod.rs`: the layout planner,
the bindings writer (`write_bindings`), the toolchain compiler
(`compile_bindings`) and the script runner (`run_script`).

Modelling choices:
* Paths are plain strings; `PathBuf::push` of a relative component is string
  concatenation with a `"/"` separator.
* The component interface is opaque except for its namespace accessor, exactly
  as in the source, which only ever calls `ci.namespace()`.
* The askama template renderers (`BridgingHeader`, `SwiftWrapper`,
  `ModuleMap`) are external collaborators: they are passed in as pure
  functions that can fail, mirroring `render() -> Result<String, _>`.
  `ModuleMap::new(&ci, header_path)` receives the header path, so the
  module-map renderer is a function of that path.
* The filesystem is an explicit state: a list of directories and an
  association list of file paths to contents.  `File::create` truncates
  (inserts an empty file), `write!` then stores the rendered text.  Host
  filesystem failures are environment nondeterminism outside the claims
  considered here, so the state operations themselves are total; render
  failures and process failures are modelled exactly.
* Spawned processes are an external collaborator: a function from a program
  name and argument vector to a spawn outcome (spawn failure, or an exit
  status).  The source only observes `spawn()?.wait()?.success()`.
-/

namespace UniffiSwift

/-- The component interface, opaque to this module except for `namespace()`
(the source only calls `ci.namespace()`). -/
structure ComponentInterface where
  ns : String
deriving DecidableEq

/-- In-memory rendered artifacts, as in `struct Bindings { header, library }`. -/
structure Bindings where
  header : String
  library : String
deriving DecidableEq

/-- Which artifact failed to render, tagging the `anyhow!` messages
"failed to render Swift bridging header / Swift library / Swift module map". -/
inductive RenderFailure where
  | header
  | library
  | moduleMap
deriving DecidableEq

/-- The template-rendering collaborators derived from one component interface:
pure functions that may fail, as askama's `render()` does.  The module-map
template additionally takes the header path (`ModuleMap::new(&ci, header_path)`). -/
structure Renderer where
  header : Except Unit String
  library : Except Unit String
  moduleMap : String → Except Unit String

/-- `PathBuf::push` of a relative component. -/
def pjoin (dir component : String) : String :=
  dir ++ "/" ++ component

/-- Layout planner: the per-namespace module directory
`<out_dir>/<namespace>.swiftmodule-dir`. -/
def moduleDirPath (ci : ComponentInterface) (outDir : String) : String :=
  pjoin outDir (ci.ns ++ ".swiftmodule-dir")

/-- Layout planner: the module map `<module_dir>/uniffi.modulemap`. -/
def moduleMapPath (ci : ComponentInterface) (outDir : String) : String :=
  pjoin (moduleDirPath ci outDir) "uniffi.modulemap"

/-- Layout planner: the bridging header
`<module_dir>/<namespace>-Bridging-Header.h`. -/
def headerPath (ci : ComponentInterface) (outDir : String) : String :=
  pjoin (moduleDirPath ci outDir) (ci.ns ++ "-Bridging-Header.h")

/-- Layout planner: the wrapper source `<out_dir>/<namespace>.swift`. -/
def sourcePath (ci : ComponentInterface) (outDir : String) : String :=
  pjoin outDir (ci.ns ++ ".swift")

/-- Layout planner: the dynamic library `<out_dir>/lib<namespace>.dylib`
built by `compile_bindings`. -/
def dylibPath (ci : ComponentInterface) (outDir : String) : String :=
  pjoin outDir ("lib" ++ ci.ns ++ ".dylib")

/-- The filesystem state: created directories and files with their contents. -/
structure FS where
  dirs : List String
  files : List (String × String)
deriving DecidableEq

/-- The empty filesystem. -/
def FS.empty : FS := ⟨[], []⟩

/-- `fs::create_dir_all`: ensure a directory exists. -/
def FS.createDirAll (fs : FS) (p : String) : FS :=
  { fs with dirs := if p ∈ fs.dirs then fs.dirs else p :: fs.dirs }

/-- `File::create`: create or truncate the file at `p`. -/
def FS.createFile (fs : FS) (p : String) : FS :=
  { fs with files := (p, "") :: fs.files.filter (fun e => e.1 != p) }

/-- A single `write!` into a handle just produced by `File::create`:
the file at `p` now holds exactly `c`. -/
def FS.writeAll (fs : FS) (p : String) (c : String) : FS :=
  { fs with files := (p, c) :: fs.files.filter (fun e => e.1 != p) }

/-- Contents of the file at `p`, if present. -/
def FS.read (fs : FS) (p : String) : Option String :=
  (fs.files.find? (fun e => e.1 == p)).map (·.2)

/-- `generate_bindings`: render the bridging header, then the wrapper source;
the first failure aborts with its artifact tag. -/
def generate_bindings (r : Renderer) : Except RenderFailure Bindings :=
  match r.header with
  | .error _ => .error .header
  | .ok header =>
    match r.library with
    | .error _ => .error .library
    | .ok library => .ok ⟨header, library⟩

/-- `generate_module_map`: render the module map from the header path. -/
def generate_module_map (r : Renderer) (headerFile : String) :
    Except RenderFailure String :=
  match r.moduleMap headerFile with
  | .error _ => .error .moduleMap
  | .ok s => .ok s

/-- `write_bindings`, step for step:
create the per-namespace module directory; render header and wrapper source
(`generate_bindings`); create and write the header file; create the
module-map file, render the module map from the header path, write it;
create and write the source file.  The returned state reflects exactly the
filesystem effects performed before any failure. -/
def write_bindings (ci : ComponentInterface) (outDir : String) (r : Renderer)
    (fs : FS) : FS × Option RenderFailure :=
  let moduleDir := moduleDirPath ci outDir
  let fs := fs.createDirAll moduleDir
  let moduleMapFile := moduleMapPath ci outDir
  let headerFile := headerPath ci outDir
  let sourceFile := sourcePath ci outDir
  match generate_bindings r with
  | .error e => (fs, some e)
  | .ok b =>
    let fs := fs.createFile headerFile
    let fs := fs.writeAll headerFile b.header
    let fs := fs.createFile moduleMapFile
    match generate_module_map r headerFile with
    | .error e => (fs, some e)
    | .ok mm =>
      let fs := fs.writeAll moduleMapFile mm
      let fs := fs.createFile sourceFile
      let fs := fs.writeAll sourceFile b.library
      (fs, none)

/-- Outcome of spawning and waiting on an external process: the spawn itself
can fail (an I/O error), or the process runs and exits with a status. -/
inductive SpawnResult where
  | spawnFailed (msg : String)
  | exited (success : Bool)
deriving DecidableEq

/-- A process runner: program name and argument vector to outcome. -/
abbrev ProcessRunner : Type := String → List String → SpawnResult

/-- Errors of the toolchain stages: the I/O error from a failed spawn, or the
`bail!` on an unsuccessful exit, tagged with the tool name. -/
inductive ToolError where
  | io (msg : String)
  | toolchain (tool : String)
deriving DecidableEq

/-- The exact `swiftc` argument vector built by `compile_bindings`:
`-module-name <ns>`, `-emit-library`, `-o <dylib>`, `-emit-module`,
`-emit-module-path <out>`, `-parse-as-library`, `-L <out>`,
`-luniffi_<ns>`, `-Xcc -fmodule-map-file=<module map>` (one concatenated
token, as the `OsString::push` in the source produces), then the source file. -/
def compile_args (ci : ComponentInterface) (outDir : String) : List String :=
  ["-module-name", ci.ns,
   "-emit-library", "-o", dylibPath ci outDir,
   "-emit-module", "-emit-module-path", outDir,
   "-parse-as-library",
   "-L", outDir,
   "-luniffi_" ++ ci.ns,
   "-Xcc", "-fmodule-map-file=" ++ moduleMapPath ci outDir,
   sourcePath ci outDir]

/-- `compile_bindings`: recompute the paths, build the argument vector, spawn
`swiftc`, wait; a non-success exit is `bail!("running `swiftc` failed")`.
No filesystem access happens in this function itself. -/
def compile_bindings (ci : ComponentInterface) (outDir : String)
    (run : ProcessRunner) : Option ToolError :=
  match run "swiftc" (compile_args ci outDir) with
  | .spawnFailed m => some (.io m)
  | .exited true => none
  | .exited false => some (.toolchain "swiftc")

/-- The characters after the last `.` of a character list, if any. -/
def afterLastDot : List Char → Option (List Char)
  | [] => none
  | c :: cs =>
    match afterLastDot cs with
    | some e => some e
    | none => if c = '.' then some cs else none

/-- `Path::extension()` on a file name: the part after the last `.`, none when
there is no `.`, or when the only `.` is the leading one of a dotfile such as
`.hidden` (Rust requires a non-empty stem before the dot). -/
def extensionOf (name : String) : Option String :=
  match name.data with
  | [] => none
  | _ :: cs =>
    match afterLastDot cs with
    | some e => some (String.mk e)
    | none => none

/-- The interpreter flags one directory entry contributes in `run_script`:
a `-Xcc -fmodule-map-file=<entry>/uniffi.modulemap` pair for a
`.swiftmodule-dir` entry, a single `-l<entry>` token for a `.dylib` or `.so`
entry, nothing otherwise.  `entry.path()` is the output directory joined with
the entry name. -/
def run_script_entry_args (outDir name : String) : List String :=
  match extensionOf name with
  | none => []
  | some ext =>
    if ext = "swiftmodule-dir" then
      ["-Xcc", "-fmodule-map-file=" ++ pjoin (pjoin outDir name) "uniffi.modulemap"]
    else if ext = "dylib" ∨ ext = "so" then
      ["-l" ++ pjoin outDir name]
    else []

/-- An I/O error surfaced by `read_dir` or by reading one of its entries. -/
abbrev IoMsg : Type := String

/-- A directory listing as `read_dir` yields it: each entry may itself be an
error (`let entry = entry?;`). -/
abbrev DirListing : Type := List (Except IoMsg String)

/-- The flags contributed by the scan loop of `run_script`: entries are
processed in listing order, and the first failing entry aborts the whole
call with its I/O error. -/
def scan_args (outDir : String) : DirListing → Except IoMsg (List String)
  | [] => .ok []
  | .error e :: _ => .error e
  | .ok name :: rest =>
    match scan_args outDir rest with
    | .error e => .error e
    | .ok tail => .ok (run_script_entry_args outDir name ++ tail)

/-- The argument vector `run_script` hands to `swift`, together with every
filesystem read it performs: `-I <out> -L <out>` and the scanned flags when
an output directory is given, then the script path when given.  An I/O error
from `read_dir` or from an entry aborts before the interpreter is spawned. -/
def run_script_argv (outDir : Option String)
    (readDir : String → Except IoMsg DirListing)
    (script : Option String) : Except IoMsg (List String) :=
  match outDir with
  | none => .ok (match script with | some s => [s] | none => [])
  | some d =>
    match readDir d with
    | .error e => .error e
    | .ok entries =>
      match scan_args d entries with
      | .error e => .error e
      | .ok flags =>
        .ok (["-I", d, "-L", d] ++ flags ++
          (match script with | some s => [s] | none => []))

/-- `run_script`: build the argument vector (performing the directory scan),
then spawn `swift` and wait; a non-success exit is
`bail!("running `swift` failed")`. -/
def run_script (outDir : Option String)
    (readDir : String → Except IoMsg DirListing)
    (script : Option String) (run : ProcessRunner) : Option ToolError :=
  match run_script_argv outDir readDir script with
  | .error e => some (.io e)
  | .ok args =>
    match run "swift" args with
    | .spawnFailed m => some (.io m)
    | .exited true => none
    | .exited false => some (.toolchain "swift")

/-- A renderer whose three templates all succeed; the module-map template
records the header path it was given. -/
def sampleRenderer : Renderer :=
  ⟨.ok "HEADER", .ok "LIBRARY", fun p => .ok ("module-map referencing " ++ p)⟩

/-- A renderer whose module-map template fails while header and wrapper
source render fine. -/
def failingModuleMapRenderer : Renderer :=
  ⟨.ok "HEADER", .ok "LIBRARY", fun _ => .error ()⟩

/-- A renderer whose bridging-header template fails. -/
def failingHeaderRenderer : Renderer :=
  ⟨.error (), .ok "LIBRARY", fun p => .ok ("module-map referencing " ++ p)⟩

/-- A renderer whose wrapper-source template fails. -/
def failingLibraryRenderer : Renderer :=
  ⟨.ok "HEADER", .error (), fun p => .ok ("module-map referencing " ++ p)⟩

/-- A process runner in which every spawned tool runs but exits
unsuccessfully — what `swiftc` does when handed a module-map override and a
source file that do not exist. -/
def failingToolRunner : ProcessRunner := fun _ _ => .exited false

/-- A process runner in which every spawned tool exits successfully. -/
def succeedingToolRunner : ProcessRunner := fun _ _ => .exited true

/-- A `read_dir` in which the directory itself cannot be read. -/
def failingReadDir : String → Except IoMsg DirListing := fun _ => .error "permission denied"

/-- A `read_dir` whose second entry fails to be read. -/
def badEntryReadDir : String → Except IoMsg DirListing :=
  fun _ => .ok [.ok "a.dylib", .error "stale entry"]

/-- A directory listing in which a shared library precedes a module
directory, the order the filesystem happens to return. -/
def interleavedReadDir : String → Except IoMsg DirListing :=
  fun _ => .ok [.ok "a.dylib", .ok "b.swiftmodule-dir"]

/-! ## Helper lemmas -/

/-- The last character of `a ++ s` is the last character of `s`. -/
theorem data_getLast?_append (a s : String) (c : Char)
    (hs : s.data.getLast? = some c) : (a ++ s).data.getLast? = some c := by
  rw [String.data_append, List.getLast?_append, hs]
  rfl

/-- The wrapper-source path always ends in `t` (of `.swift`). -/
theorem sourcePath_last (ci : ComponentInterface) (D : String) :
    (sourcePath ci D).data.getLast? = some 't' := by
  unfold sourcePath pjoin
  exact data_getLast?_append _ _ _ (data_getLast?_append _ ".swift" _ (by decide))

/-- The bridging-header path always ends in `h` (of `-Bridging-Header.h`). -/
theorem headerPath_last (ci : ComponentInterface) (D : String) :
    (headerPath ci D).data.getLast? = some 'h' := by
  unfold headerPath pjoin
  exact data_getLast?_append _ _ _ (data_getLast?_append _ "-Bridging-Header.h" _ (by decide))

/-- The module-map path always ends in `p` (of `uniffi.modulemap`). -/
theorem moduleMapPath_last (ci : ComponentInterface) (D : String) :
    (moduleMapPath ci D).data.getLast? = some 'p' := by
  unfold moduleMapPath pjoin
  exact data_getLast?_append _ "uniffi.modulemap" _ (by decide)

/-- The three artifact paths of one namespace are pairwise distinct. -/
theorem headerPath_ne_moduleMapPath (ci : ComponentInterface) (D : String) :
    headerPath ci D ≠ moduleMapPath ci D := by
  intro h
  have h2 : (headerPath ci D).data.getLast? = (moduleMapPath ci D).data.getLast? := by rw [h]
  rw [headerPath_last, moduleMapPath_last] at h2
  exact absurd h2 (by decide)

theorem sourcePath_ne_moduleMapPath (ci : ComponentInterface) (D : String) :
    sourcePath ci D ≠ moduleMapPath ci D := by
  intro h
  have h2 : (sourcePath ci D).data.getLast? = (moduleMapPath ci D).data.getLast? := by rw [h]
  rw [sourcePath_last, moduleMapPath_last] at h2
  exact absurd h2 (by decide)

theorem sourcePath_ne_headerPath (ci : ComponentInterface) (D : String) :
    sourcePath ci D ≠ headerPath ci D := by
  intro h
  have h2 : (sourcePath ci D).data.getLast? = (headerPath ci D).data.getLast? := by rw [h]
  rw [sourcePath_last, headerPath_last] at h2
  exact absurd h2 (by decide)

/-- The full effect of a `write_bindings` call in which all three renders
succeed: the sequence of filesystem operations the source performs. -/
theorem write_bindings_ok_unfold (ci : ComponentInterface) (D : String) (r : Renderer)
    (fs : FS) (hdr lib mm : String) (hh : r.header = .ok hdr) (hl : r.library = .ok lib)
    (hm : r.moduleMap (headerPath ci D) = .ok mm) :
    write_bindings ci D r fs =
      (((((((fs.createDirAll (moduleDirPath ci D)).createFile
          (headerPath ci D)).writeAll (headerPath ci D) hdr).createFile
          (moduleMapPath ci D)).writeAll (moduleMapPath ci D) mm).createFile
          (sourcePath ci D)).writeAll (sourcePath ci D) lib, none) := by
  simp [write_bindings, generate_bindings, generate_module_map, hh, hl, hm]

/-- On an empty filesystem a successful `write_bindings` produces exactly the
module directory and the three artifact files. -/
theorem write_bindings_empty_result (ci : ComponentInterface) (D : String) (r : Renderer)
    (hdr lib mm : String) (hh : r.header = .ok hdr) (hl : r.library = .ok lib)
    (hm : r.moduleMap (headerPath ci D) = .ok mm) :
    write_bindings ci D r FS.empty =
      (⟨[moduleDirPath ci D],
        [(sourcePath ci D, lib), (moduleMapPath ci D, mm), (headerPath ci D, hdr)]⟩,
       none) := by
  rw [write_bindings_ok_unfold ci D r FS.empty hdr lib mm hh hl hm]
  simp [FS.empty, FS.createDirAll, FS.createFile, FS.writeAll, List.filter_cons,
    bne_iff_ne, headerPath_ne_moduleMapPath ci D, sourcePath_ne_moduleMapPath ci D,
    sourcePath_ne_headerPath ci D,
    (headerPath_ne_moduleMapPath ci D).symm, (sourcePath_ne_moduleMapPath ci D).symm,
    (sourcePath_ne_headerPath ci D).symm]

/-- Running `write_bindings` again on the filesystem state its first
successful run produced reproduces that state exactly. -/
theorem write_bindings_rerun (ci : ComponentInterface) (D : String) (r : Renderer)
    (hdr lib mm : String) (hh : r.header = .ok hdr) (hl : r.library = .ok lib)
    (hm : r.moduleMap (headerPath ci D) = .ok mm) :
    write_bindings ci D r
      ⟨[moduleDirPath ci D],
       [(sourcePath ci D, lib), (moduleMapPath ci D, mm), (headerPath ci D, hdr)]⟩ =
      (⟨[moduleDirPath ci D],
        [(sourcePath ci D, lib), (moduleMapPath ci D, mm), (headerPath ci D, hdr)]⟩,
       none) := by
  rw [write_bindings_ok_unfold ci D r _ hdr lib mm hh hl hm]
  simp [FS.createDirAll, FS.createFile, FS.writeAll, List.filter_cons,
    bne_iff_ne, headerPath_ne_moduleMapPath ci D, sourcePath_ne_moduleMapPath ci D,
    sourcePath_ne_headerPath ci D,
    (headerPath_ne_moduleMapPath ci D).symm, (sourcePath_ne_moduleMapPath ci D).symm,
    (sourcePath_ne_headerPath ci D).symm]

/-- The scan loop over a listing of readable entries collects each entry's
flags in listing order. -/
theorem scan_args_map_ok (D : String) (names : List String) :
    scan_args D (names.map Except.ok) = .ok ((names.map (run_script_entry_args D)).flatten) := by
  induction names with
  | nil => rfl
  | cons n t ih => simp [scan_args, ih]

/-- The scan loop fails with the I/O error of the first unreadable entry. -/
theorem scan_args_entry_error (D : String) (pre : List String) (e : IoMsg)
    (rest : DirListing) :
    scan_args D (pre.map Except.ok ++ Except.error e :: rest) = .error e := by
  induction pre with
  | nil => rfl
  | cons n t ih => simp [scan_args, ih]

/-! ## Claims -/

/-- Claim C1: `compile_bindings` builds the external-compiler argument vector
in exactly the stated order — module-name flag with the namespace, emit-library
flag with output path `D/lib<N>.dylib`, emit-module flag, emit-module-path flag
with `D`, parse-as-library flag, library-search-path flag with `D`, the link
flag `-luniffi_<N>`, the passthrough flag `-Xcc` followed by the single
concatenated token `-fmodule-map-file=D/<N>.swiftmodule-dir/uniffi.modulemap`,
and finally the source file `D/<N>.swift` as the last positional argument. -/
theorem compile_args_exact_order (ci : ComponentInterface) (D : String) :
    compile_args ci D =
      ["-module-name", ci.ns,
       "-emit-library", "-o", D ++ "/lib" ++ ci.ns ++ ".dylib",
       "-emit-module", "-emit-module-path", D,
       "-parse-as-library",
       "-L", D,
       "-luniffi_" ++ ci.ns,
       "-Xcc",
       "-fmodule-map-file=" ++ D ++ "/" ++ ci.ns ++ ".swiftmodule-dir/uniffi.modulemap",
       D ++ "/" ++ ci.ns ++ ".swift"] ∧
    (compile_args ci D).getLast? = some (D ++ "/" ++ ci.ns ++ ".swift") := by
  have m1 : ∀ x : String, "/" ++ ("lib" ++ x) = "/lib" ++ x := fun x => by
    rw [← String.append_assoc]; exact rfl
  have m2 : (".swiftmodule-dir" : String) ++ ("/" ++ "uniffi.modulemap") =
      ".swiftmodule-dir/uniffi.modulemap" := rfl
  constructor
  · simp [compile_args, dylibPath, moduleMapPath, moduleDirPath, sourcePath, pjoin,
      String.append_assoc, m1, m2]
  · have h : (compile_args ci D).getLast? = some (sourcePath ci D) := rfl
    rw [h]
    simp [sourcePath, pjoin, String.append_assoc]

/-- Claim C2: a successful `write_bindings` on a fresh output root creates
exactly one directory `D/<N>.swiftmodule-dir`, containing exactly the two
files `uniffi.modulemap` and `<N>-Bridging-Header.h`, plus exactly one source
file `D/<N>.swift` directly under `D`; for namespace `mylib` and output
directory `/out` the planned paths are the literal ones of the claim. -/
theorem write_bindings_exact_layout (ci : ComponentInterface) (D : String)
    (r : Renderer) (hdr lib mm : String) (hh : r.header = .ok hdr)
    (hl : r.library = .ok lib) (hm : r.moduleMap (headerPath ci D) = .ok mm) :
    write_bindings ci D r FS.empty =
      (⟨[pjoin D (ci.ns ++ ".swiftmodule-dir")],
        [(pjoin D (ci.ns ++ ".swift"), lib),
         (pjoin (pjoin D (ci.ns ++ ".swiftmodule-dir")) "uniffi.modulemap", mm),
         (pjoin (pjoin D (ci.ns ++ ".swiftmodule-dir")) (ci.ns ++ "-Bridging-Header.h"),
          hdr)]⟩,
       none) ∧
    moduleDirPath ⟨"mylib"⟩ "/out" = "/out/mylib.swiftmodule-dir" ∧
    moduleMapPath ⟨"mylib"⟩ "/out" = "/out/mylib.swiftmodule-dir/uniffi.modulemap" ∧
    headerPath ⟨"mylib"⟩ "/out" = "/out/mylib.swiftmodule-dir/mylib-Bridging-Header.h" ∧
    sourcePath ⟨"mylib"⟩ "/out" = "/out/mylib.swift" := by
  refine ⟨?_, rfl, rfl, rfl, rfl⟩
  rw [write_bindings_empty_result ci D r hdr lib mm hh hl hm]
  rfl

/-- Witness for C2 at namespace `mylib`, output directory `/out`. -/
theorem write_bindings_exact_layout_witness :
    write_bindings ⟨"mylib"⟩ "/out" sampleRenderer FS.empty =
      (⟨["/out/mylib.swiftmodule-dir"],
        [("/out/mylib.swift", "LIBRARY"),
         ("/out/mylib.swiftmodule-dir/uniffi.modulemap",
          "module-map referencing /out/mylib.swiftmodule-dir/mylib-Bridging-Header.h"),
         ("/out/mylib.swiftmodule-dir/mylib-Bridging-Header.h", "HEADER")]⟩,
       none) := by
  have h := (write_bindings_exact_layout ⟨"mylib"⟩ "/out" sampleRenderer
      "HEADER" "LIBRARY" ("module-map referencing " ++ headerPath ⟨"mylib"⟩ "/out")
      rfl rfl rfl).1
  rw [h]
  rfl

/-- Counterexample to claim C3: with a renderer whose module-map template
fails (header and wrapper source rendering fine), `write_bindings` fails with
the module-map render error, yet the bridging header has already been written
in full and the module-map file has been created empty — partial output on a
render failure, refuting "no artifact file has been written". -/
theorem write_bindings_partial_output_on_render_failure :
    (write_bindings ⟨"mylib"⟩ "/out" failingModuleMapRenderer FS.empty).2 =
      some .moduleMap ∧
    FS.read (write_bindings ⟨"mylib"⟩ "/out" failingModuleMapRenderer FS.empty).1
        "/out/mylib.swiftmodule-dir/mylib-Bridging-Header.h" = some "HEADER" ∧
    FS.read (write_bindings ⟨"mylib"⟩ "/out" failingModuleMapRenderer FS.empty).1
        "/out/mylib.swiftmodule-dir/uniffi.modulemap" = some "" :=
  ⟨rfl, rfl, rfl⟩

/-- Claim C3 as amended: the bridging header and wrapper source are rendered
(`generate_bindings`) before any file is written, so a render failure of
either leaves no file written (only the module directory created); the module
map, however, is rendered only after the header file has been written and the
module-map file created, so a module-map render failure leaves the written
header and an empty module-map file behind. -/
theorem write_bindings_render_failure_boundary (ci : ComponentInterface) (D : String)
    (r : Renderer) (fs : FS) :
    (r.header = .error () →
      write_bindings ci D r fs = (fs.createDirAll (moduleDirPath ci D), some .header)) ∧
    (∀ hdr, r.header = .ok hdr → r.library = .error () →
      write_bindings ci D r fs = (fs.createDirAll (moduleDirPath ci D), some .library)) ∧
    (∀ hdr lib, r.header = .ok hdr → r.library = .ok lib →
      r.moduleMap (headerPath ci D) = .error () →
      write_bindings ci D r fs =
        ((((fs.createDirAll (moduleDirPath ci D)).createFile (headerPath ci D)).writeAll
            (headerPath ci D) hdr).createFile (moduleMapPath ci D),
         some .moduleMap)) := by
  refine ⟨?_, ?_, ?_⟩
  · intro h
    simp [write_bindings, generate_bindings, h]
  · intro hdr hh hl
    simp [write_bindings, generate_bindings, hh, hl]
  · intro hdr lib hh hl hm
    simp [write_bindings, generate_bindings, generate_module_map, hh, hl, hm]

/-- Witness for the amended C3: each of the three render-failure boundaries at
a concrete namespace and output directory. -/
theorem write_bindings_render_failure_boundary_witness :
    write_bindings ⟨"mylib"⟩ "/out" failingHeaderRenderer FS.empty =
      (FS.empty.createDirAll (moduleDirPath ⟨"mylib"⟩ "/out"), some .header) ∧
    write_bindings ⟨"mylib"⟩ "/out" failingLibraryRenderer FS.empty =
      (FS.empty.createDirAll (moduleDirPath ⟨"mylib"⟩ "/out"), some .library) ∧
    write_bindings ⟨"mylib"⟩ "/out" failingModuleMapRenderer FS.empty =
      ((((FS.empty.createDirAll (moduleDirPath ⟨"mylib"⟩ "/out")).createFile
          (headerPath ⟨"mylib"⟩ "/out")).writeAll (headerPath ⟨"mylib"⟩ "/out")
          "HEADER").createFile (moduleMapPath ⟨"mylib"⟩ "/out"),
       some .moduleMap) :=
  ⟨(write_bindings_render_failure_boundary ⟨"mylib"⟩ "/out" failingHeaderRenderer
      FS.empty).1 rfl,
   (write_bindings_render_failure_boundary ⟨"mylib"⟩ "/out" failingLibraryRenderer
      FS.empty).2.1 "HEADER" rfl rfl,
   (write_bindings_render_failure_boundary ⟨"mylib"⟩ "/out" failingModuleMapRenderer
      FS.empty).2.2 "HEADER" "LIBRARY" rfl rfl rfl⟩

/-- Counterexample to claim C4: for a fresh namespace the external compiler,
handed a module-map override and source file that do not exist, runs and exits
unsuccessfully; `compile_bindings` then fails with the `ToolchainError` naming
`swiftc` — not with an I/O error about the missing module-map file. -/
theorem compile_bindings_fresh_namespace_counterexample :
    compile_bindings ⟨"mylib"⟩ "/out" failingToolRunner = some (.toolchain "swiftc") :=
  rfl

/-- Claim C4 as amended: `compile_bindings` performs no filesystem reads of
its own, so a missing module map can only surface through the external
compiler: whenever `swiftc` exits unsuccessfully the error is the
`ToolchainError` naming `swiftc`, and an I/O error arises exactly when
spawning the compiler process itself fails. -/
theorem compile_bindings_failure_is_toolchain_error (ci : ComponentInterface)
    (D : String) (run : ProcessRunner) :
    (run "swiftc" (compile_args ci D) = .exited false →
      compile_bindings ci D run = some (.toolchain "swiftc")) ∧
    (∀ m, compile_bindings ci D run = some (.io m) ↔
      run "swiftc" (compile_args ci D) = .spawnFailed m) := by
  constructor
  · intro h
    simp [compile_bindings, h]
  · intro m
    cases hr : run "swiftc" (compile_args ci D) with
    | spawnFailed s => simp [compile_bindings, hr]
    | exited s => cases s <;> simp [compile_bindings, hr]

/-- Witness for the amended C4 at a concrete namespace and runner. -/
theorem compile_bindings_failure_is_toolchain_error_witness :
    compile_bindings ⟨"othermod"⟩ "/target" failingToolRunner =
      some (.toolchain "swiftc") :=
  (compile_bindings_failure_is_toolchain_error ⟨"othermod"⟩ "/target"
    failingToolRunner).1 rfl

/-- Counterexample to claim C5: when the directory listing returns a shared
library before a module directory, the link flag precedes the module-map
flag, so the argument vector is not grouped with all module-map flags before
all link flags. -/
theorem run_script_argv_not_grouped_counterexample :
    run_script_argv (some "/out") interleavedReadDir (some "script.swift") =
      .ok ["-I", "/out", "-L", "/out", "-l/out/a.dylib",
           "-Xcc", "-fmodule-map-file=/out/b.swiftmodule-dir/uniffi.modulemap",
           "script.swift"] ∧
    run_script_argv (some "/out") interleavedReadDir (some "script.swift") ≠
      .ok ["-I", "/out", "-L", "/out",
           "-Xcc", "-fmodule-map-file=/out/b.swiftmodule-dir/uniffi.modulemap",
           "-l/out/a.dylib", "script.swift"] := by
  refine ⟨rfl, fun h => ?_⟩
  have e : run_script_argv (some "/out") interleavedReadDir (some "script.swift") =
      .ok ["-I", "/out", "-L", "/out", "-l/out/a.dylib",
           "-Xcc", "-fmodule-map-file=/out/b.swiftmodule-dir/uniffi.modulemap",
           "script.swift"] := rfl
  rw [e] at h
  exact absurd (Except.ok.inj h) (by decide)

/-- Claim C5 as amended: the interpreter argument vector is the include-path
and library-search-path flags for the given output directory, then each
discovered entry's flags — a module-map flag pair or a link flag — in listing
order, interleaved rather than grouped by kind, and finally the script path
(if given) as the sole trailing positional argument; without an output
directory only the optional script path remains. -/
theorem run_script_argv_interleaved_order (D : String) (names : List String)
    (script : Option String) :
    run_script_argv (some D) (fun _ => .ok (names.map Except.ok)) script =
      .ok (["-I", D, "-L", D] ++ (names.map (run_script_entry_args D)).flatten ++
        script.toList) ∧
    (∀ readDir : String → Except IoMsg DirListing,
      run_script_argv none readDir script = .ok script.toList) := by
  constructor
  · cases script <;> simp [run_script_argv, scan_args_map_ok, Option.toList]
  · intro readDir
    cases script <;> simp [run_script_argv, Option.toList]

/-- Claim C6: for each immediate entry of the scanned output directory, a
link flag `-l<entry path>` is emitted exactly when the entry's extension is a
shared-library extension (`dylib` or `so`), and a `-Xcc` module-map flag
pointing at `<entry path>/uniffi.modulemap` is emitted exactly when the
extension is `swiftmodule-dir`; the decision uses the extension alone. -/
theorem run_script_entry_flag_criteria (D name : String) :
    (run_script_entry_args D name = ["-l" ++ pjoin D name] ↔
      extensionOf name = some "dylib" ∨ extensionOf name = some "so") ∧
    (run_script_entry_args D name =
        ["-Xcc", "-fmodule-map-file=" ++ pjoin (pjoin D name) "uniffi.modulemap"] ↔
      extensionOf name = some "swiftmodule-dir") := by
  cases h : extensionOf name with
  | none => simp [run_script_entry_args, h]
  | some ext =>
    by_cases h1 : ext = "swiftmodule-dir"
    · subst h1
      simp +decide [run_script_entry_args, h]
    · by_cases h2 : ext = "dylib" ∨ ext = "so"
      · rcases h2 with h2 | h2 <;> subst h2 <;> simp +decide [run_script_entry_args, h]
      · simp [run_script_entry_args, h, h1, h2]

/-- Claim C9: an I/O failure while scanning the output directory — either
`read_dir` itself or any of its entries failing — makes `run_script` return
that I/O error no matter how the interpreter would have behaved: the
interpreter is spawned only after the whole scan succeeded. -/
theorem run_script_io_error_never_spawns (d : String)
    (readDir : String → Except IoMsg DirListing) (script : Option String)
    (e : IoMsg) :
    (readDir d = .error e →
      ∀ run : ProcessRunner, run_script (some d) readDir script run = some (.io e)) ∧
    (∀ (pre : List String) (rest : DirListing),
      readDir d = .ok (pre.map Except.ok ++ Except.error e :: rest) →
      ∀ run : ProcessRunner, run_script (some d) readDir script run = some (.io e)) := by
  constructor
  · intro h run
    simp [run_script, run_script_argv, h]
  · intro pre rest h run
    simp [run_script, run_script_argv, h, scan_args_entry_error]

/-- Witness for C9: a failing `read_dir` and a failing entry, each with an
interpreter that would have succeeded, still surface the I/O error. -/
theorem run_script_io_error_never_spawns_witness :
    run_script (some "/out") failingReadDir none succeedingToolRunner =
      some (.io "permission denied") ∧
    run_script (some "/out") badEntryReadDir none succeedingToolRunner =
      some (.io "stale entry") :=
  ⟨(run_script_io_error_never_spawns "/out" failingReadDir none
      "permission denied").1 rfl succeedingToolRunner,
   (run_script_io_error_never_spawns "/out" badEntryReadDir none
      "stale entry").2 ["a.dylib"] [] rfl succeedingToolRunner⟩

/-- Claim C10: with no output directory and no script file, `run_script`
spawns the interpreter with an empty argument vector, consults the directory
reader not at all, and succeeds exactly when the interpreter exits
successfully. -/
theorem run_script_empty_invocation (readDir : String → Except IoMsg DirListing)
    (run : ProcessRunner) :
    run_script none readDir none run =
      (match run "swift" [] with
       | .spawnFailed m => some (.io m)
       | .exited true => none
       | .exited false => some (.toolchain "swift")) ∧
    (run_script none readDir none run = none ↔ run "swift" [] = .exited true) := by
  cases h : run "swift" [] with
  | spawnFailed m => simp [run_script, run_script_argv, h]
  | exited s => cases s <;> simp [run_script, run_script_argv, h]

/-- Claim C7: with pure renderers, running `write_bindings` a second time on
the state its first run produced returns exactly the same state — every write
truncates and recreates its file rather than appending, so all three artifact
files come out byte-for-byte identical to the first run. -/
theorem write_bindings_idempotent (ci : ComponentInterface) (D : String)
    (r : Renderer) (hdr lib mm : String) (hh : r.header = .ok hdr)
    (hl : r.library = .ok lib) (hm : r.moduleMap (headerPath ci D) = .ok mm) :
    write_bindings ci D r (write_bindings ci D r FS.empty).1 =
      ((write_bindings ci D r FS.empty).1, none) := by
  rw [write_bindings_empty_result ci D r hdr lib mm hh hl hm]
  exact write_bindings_rerun ci D r hdr lib mm hh hl hm

/-- Witness for C7 at a concrete namespace and renderer. -/
theorem write_bindings_idempotent_witness :
    write_bindings ⟨"mylib"⟩ "/out" sampleRenderer
        (write_bindings ⟨"mylib"⟩ "/out" sampleRenderer FS.empty).1 =
      ((write_bindings ⟨"mylib"⟩ "/out" sampleRenderer FS.empty).1, none) :=
  write_bindings_idempotent ⟨"mylib"⟩ "/out" sampleRenderer "HEADER" "LIBRARY"
    ("module-map referencing " ++ headerPath ⟨"mylib"⟩ "/out") rfl rfl rfl

/-- Claim C8: a successful `write_bindings` stores, at the planned module-map
path, exactly the module-map template's output for the final planned header
path `<outDir>/<ns>.swiftmodule-dir/<ns>-Bridging-Header.h` — never a
placeholder: the renderer is applied to the layout planner's header path. -/
theorem module_map_rendered_from_planned_header_path (ci : ComponentInterface)
    (D : String) (r : Renderer) (fs : FS) (hdr lib mm : String)
    (hh : r.header = .ok hdr) (hl : r.library = .ok lib)
    (hm : r.moduleMap (headerPath ci D) = .ok mm) :
    (write_bindings ci D r fs).2 = none ∧
    FS.read (write_bindings ci D r fs).1 (moduleMapPath ci D) = some mm := by
  rw [write_bindings_ok_unfold ci D r fs hdr lib mm hh hl hm]
  refine ⟨rfl, ?_⟩
  simp [FS.read, FS.writeAll, FS.createFile, FS.createDirAll, List.find?_cons,
    beq_iff_eq, sourcePath_ne_moduleMapPath ci D, (sourcePath_ne_moduleMapPath ci D).symm,
    sourcePath_ne_headerPath ci D, (sourcePath_ne_headerPath ci D).symm,
    headerPath_ne_moduleMapPath ci D, (headerPath_ne_moduleMapPath ci D).symm]

/-- Witness for C8: the stored module map embeds the concrete planned header
path for namespace `mylib` under `/out`. -/
theorem module_map_rendered_from_planned_header_path_witness :
    (write_bindings ⟨"mylib"⟩ "/out" sampleRenderer FS.empty).2 = none ∧
    FS.read (write_bindings ⟨"mylib"⟩ "/out" sampleRenderer FS.empty).1
        (moduleMapPath ⟨"mylib"⟩ "/out") =
      some ("module-map referencing " ++ headerPath ⟨"mylib"⟩ "/out") :=
  module_map_rendered_from_planned_header_path ⟨"mylib"⟩ "/out" sampleRenderer
    FS.empty "HEADER" "LIBRARY"
    ("module-map referencing " ++ headerPath ⟨"mylib"⟩ "/out") rfl rfl rfl

end UniffiSwift
